import Mathlib

/-!
Verification of the restore session driver of idevicerestore (src/src/restore.c)
against its natural-language specification.

The development shallowly embeds the pieces of restore.c that the verified
properties touch: C integers become Nat/Int with explicit reduction modulo
2^32 / 2^64 where the C width matters, plist dictionaries become association
lists in iteration order, fallible C paths become Option/Except, and external
collaborators that live in other translation units (libplist, libzip, tss.c,
ipsw.c, the MBN/FLS parsers) are either abstracted as function parameters or,
where a property depends on them, modelled from the specification text and
marked as such in the doc comment.
-/

namespace IdeviceRestore

/-! ## Status messages (restore_handle_status_msg, restore.c:723-786) -/

/-- Conversion of a C uint64 value, first reduced to its low 32 bits, to a
signed 32-bit int, as performed by the implicit `int result = ...` narrowing
(two-sided complement wrap, the behavior of the compilers this code targets). -/
def toInt32 (n : Nat) : Int :=
  let m := n % 4294967296
  if m < 2147483648 then (m : Int) else (m : Int) - 4294967296

/-- Embedding of the result computation of restore_handle_status_msg
(restore.c:723-786).  The argument is the AMRError entry of the StatusMsg
dictionary when it is present as an integer (PLIST_UINT) node, reduced to the
uint64 range as plist_get_uint_val yields it; `none` covers both a missing
AMRError key and one of a non-integer type, for which the handler leaves
`result = 0`.  For a present value the handler computes `result = -value` in
C (uint64 negation narrowed to int) and then flips `result` if it came out
positive. -/
def restore_handle_status_msg_result (amrError : Option Nat) : Int :=
  match amrError with
  | none => 0
  | some v =>
    let value := v % 18446744073709551616
    let result := toInt32 ((18446744073709551616 - value) % 18446744073709551616)
    if result > 0 then -result else result

/-- C10: restore_handle_status_msg never returns a positive value: it returns 0
when the message has no integer AMRError entry, and otherwise the negation of
the AMRError value, clamped to be non-positive even when the narrowing of the
64-bit negation to int would be positive. -/
theorem status_msg_result_never_positive (amrError : Option Nat) :
    restore_handle_status_msg_result amrError ≤ 0 ∧
    restore_handle_status_msg_result none = 0 ∧
    (∀ v : Nat, 0 < v → v < 2147483648 →
      restore_handle_status_msg_result (some v) = -(v : Int)) := by
  refine ⟨?_, rfl, ?_⟩
  · match amrError with
    | none => simp [restore_handle_status_msg_result]
    | some v =>
      simp only [restore_handle_status_msg_result, toInt32]
      split <;> split at * <;> omega
  · intro v h0 hlt
    simp only [restore_handle_status_msg_result, toInt32]
    have hv : v % 18446744073709551616 = v := Nat.mod_eq_of_lt (by omega)
    rw [hv]
    have h1 : (18446744073709551616 - v) % 18446744073709551616 = 18446744073709551616 - v :=
      Nat.mod_eq_of_lt (by omega)
    rw [h1]
    have h2 : (18446744073709551616 - v) % 4294967296 = 4294967296 - v % 4294967296 := by
      omega
    split
    · omega
    · split
      · omega
      · push_cast
        omega

/-- Witness for status_msg_result_never_positive at AMRError = 5. -/
theorem status_msg_result_never_positive_witness :
    restore_handle_status_msg_result (some 5) ≤ 0 ∧
    restore_handle_status_msg_result (some 5) = -(5 : Int) :=
  ⟨(status_msg_result_never_positive (some 5)).1,
   (status_msg_result_never_positive (some 5)).2.2 5 (by decide) (by decide)⟩

/-! ## Connection retry loop of the BootabilityBundle handler
(restore_send_bootability_bundle_data, restore.c:3105-3121) -/

/-- Inner loop of the data-port connection: the C code is
`int attempts = 10; while (--attempts > 0) { connect; if ok break; sleep(1); }`.
The first argument reports whether the i-th connect call (0-based) succeeds;
`attempts` is the counter before the pre-decrement test; `tried` counts the
connect calls made so far.  Returns (connect calls made, connected). -/
def bootability_connect_go (succeeds : Nat → Bool) : Nat → Nat → Nat × Bool
  | 0, tried => (tried, false)
  | attempts + 1, tried =>
    if attempts = 0 then (tried, false)
    else if succeeds tried then (tried + 1, true)
    else bootability_connect_go succeeds attempts (tried + 1)

/-- The connection retry loop of restore_send_bootability_bundle_data with its
initial counter of 10 (restore.c:3105-3117). -/
def bootability_connect_loop (succeeds : Nat → Bool) : Nat × Bool :=
  bootability_connect_go succeeds 10 0

theorem bootability_connect_go_one (succeeds : Nat → Bool) (tried : Nat) :
    bootability_connect_go succeeds 1 tried = (tried, false) := rfl

theorem bootability_connect_go_succ (succeeds : Nat → Bool) (k tried : Nat) :
    bootability_connect_go succeeds (k + 2) tried =
      if succeeds tried then (tried + 1, true)
      else bootability_connect_go succeeds (k + 1) (tried + 1) := rfl

theorem bootability_connect_go_spec (succeeds : Nat → Bool) :
    ∀ n tried,
      (bootability_connect_go succeeds (n + 1) tried).1 ≤ tried + n ∧
      ((bootability_connect_go succeeds (n + 1) tried).2 = true ↔
        ∃ j, j < n ∧ succeeds (tried + j) = true) := by
  intro n
  induction n with
  | zero =>
    intro tried
    rw [bootability_connect_go_one]
    simp
  | succ k ih =>
    intro tried
    rw [show k + 1 + 1 = k + 2 from rfl, bootability_connect_go_succ]
    by_cases hs : succeeds tried = true
    · rw [if_pos hs]
      refine ⟨by omega, ?_⟩
      simp only [true_iff]
      exact ⟨0, by omega, by simpa using hs⟩
    · rw [if_neg hs]
      obtain ⟨ih1, ih2⟩ := ih (tried + 1)
      refine ⟨by omega, ?_⟩
      rw [ih2]
      constructor
      · rintro ⟨j, hj, hsj⟩
        refine ⟨j + 1, by omega, ?_⟩
        rw [show tried + (j + 1) = tried + 1 + j by omega]
        exact hsj
      · rintro ⟨j, hj, hsj⟩
        match j with
        | 0 => rw [Nat.add_zero] at hsj; exact absurd hsj hs
        | j + 1 =>
          refine ⟨j, by omega, ?_⟩
          rw [show tried + 1 + j = tried + (j + 1) by omega]
          exact hsj

/-- C9 (counterexample): the claim says the driver attempts the outbound
connection up to 10 times before reporting a connection error, but the loop
`while (--attempts > 0)` starting from `attempts = 10` makes at most 9 connect
calls: with every attempt failing only 9 calls are made, and a connection that
would succeed on the 10th call is reported as an error. -/
theorem bootability_connect_counterexample :
    (bootability_connect_loop (fun _ => false)).1 = 9 ∧
    ¬((bootability_connect_loop (fun _ => false)).1 = 10) ∧
    (bootability_connect_loop (fun i => decide (i = 9))).2 = false := by
  refine ⟨?_, ?_, ?_⟩ <;> decide

/-- C9 (amended): when handling a BootabilityBundle request, the driver
attempts the outbound TCP connection to the device-supplied data port up to 9
times, with a 1-second delay after each failed try, and reports a connection
error exactly when none of those first 9 attempts succeeds. -/
theorem bootability_connect_at_most_nine (succeeds : Nat → Bool) :
    (bootability_connect_loop succeeds).1 ≤ 9 ∧
    ((bootability_connect_loop succeeds).2 = true ↔
      ∃ j, j < 9 ∧ succeeds j = true) := by
  obtain ⟨h1, h2⟩ := bootability_connect_go_spec succeeds 9 0
  refine ⟨by simpa [bootability_connect_loop] using h1, ?_⟩
  rw [bootability_connect_loop, show (10 : Nat) = 9 + 1 from rfl, h2]
  simp

/-! ## CPIO streamer for the BootabilityBundle
(cpio_send_file / restore_bootability_send_one /
restore_send_bootability_bundle_data, restore.c:2991-3136) -/

/-- The `octal` helper (restore.c:3005-3010): snprintf with format \x22%0*o\x22
produces the octal numeral of v zero-padded on the left to at least `width`
characters, and the memcpy into the fixed-width header field keeps the first
`width` characters (the most significant ones, should the numeral overflow the
field). -/
def octalField (width v : Nat) : List Char :=
  let digits := Nat.toDigits 8 v
  (List.replicate (width - digits.length) (Char.ofNat 48) ++ digits).take width

/-- The subset of POSIX `struct stat` the CPIO emitter reads.  All fields are
the non-negative values the archive walker produces. -/
structure CStat where
  st_dev : Nat := 0
  st_ino : Nat := 0
  st_mode : Nat := 0
  st_uid : Nat := 0
  st_gid : Nat := 0
  st_nlink : Nat := 0
  st_rdev : Nat := 0
  st_mtime : Nat := 0
  st_size : Nat := 0
  deriving DecidableEq

/-- struct cpio_odc_header (restore.c:2991-3003): fixed-width octal-ASCII
fields. -/
structure CpioOdcHeader where
  c_magic : List Char
  c_dev : List Char
  c_ino : List Char
  c_mode : List Char
  c_uid : List Char
  c_gid : List Char
  c_nlink : List Char
  c_rdev : List Char
  c_mtime : List Char
  c_namesize : List Char
  c_filesize : List Char
  deriving DecidableEq

/-- Header construction of cpio_send_file (restore.c:3012-3028): the header is
memset to ASCII zeros, the magic set to 070707, each stat field written in
octal, c_namesize counts the terminating NUL, and c_filesize is written only
when a data buffer is passed (otherwise it stays all ASCII zeros). -/
def cpio_header (name : List Char) (st : CStat) (hasData : Bool) : CpioOdcHeader :=
  { c_magic := "070707".data
    c_dev := octalField 6 st.st_dev
    c_ino := octalField 6 st.st_ino
    c_mode := octalField 6 st.st_mode
    c_uid := octalField 6 st.st_uid
    c_gid := octalField 6 st.st_gid
    c_nlink := octalField 6 st.st_nlink
    c_rdev := octalField 6 st.st_rdev
    c_mtime := octalField 11 st.st_mtime
    c_namesize := octalField 6 (name.length + 1)
    c_filesize := if hasData then octalField 11 st.st_size
                  else List.replicate 11 (Char.ofNat 48) }

/-- One record on the wire: header, NUL-terminated name, then the data bytes
when present (cpio_send_file sends exactly these three pieces). -/
structure CpioRecord where
  name : List Char
  header : CpioOdcHeader
  data : Option (List Nat)
  deriving DecidableEq

/-- The trailer record sent at the end of the bundle stream
(restore.c:3130-3131): `struct stat st = {.st_nlink = 1};` leaves every other
stat field zero, and the data pointer is NULL. -/
def cpio_trailer_record : CpioRecord :=
  { name := "TRAILER!!!".data
    header := cpio_header "TRAILER!!!".data { st_nlink := 1 } false
    data := none }

/-- Mode test `S_ISLNK(m) || S_ISREG(m)` (restore.c:3076): the file-type bits
(mask 0o170000) equal 0o120000 (symlink) or 0o100000 (regular file). -/
def stat_is_lnk_or_reg (mode : Nat) : Bool :=
  mode % 65536 / 4096 = 10 || mode % 65536 / 4096 = 8

/-- Path filter of restore_bootability_send_one (restore.c:3057-3069): the
trustcache entry is renamed, entries under the Bootability prefix are emitted
with the prefix stripped, anything else is skipped. -/
def bootability_subpath (name : List Char) : Option (List Char) :=
  if name = "BootabilityBundle/Restore/Firmware/Bootability.dmg.trustcache".data then
    some "Bootability.trustcache".data
  else if "BootabilityBundle/Restore/Bootability/".data.isPrefixOf name then
    some (name.drop "BootabilityBundle/Restore/Bootability/".data.length)
  else none

/-- One archive entry as restore_bootability_send_one sees it: its full name
inside the archive, its stat record, and its contents. -/
structure BundleEntry where
  name : List Char
  stat : CStat
  contents : List Nat

/-- The record restore_bootability_send_one emits for one accepted entry
(restore.c:3071-3090): uid and gid are forced to 0, and data is attached only
for regular files / symlinks of nonzero size. -/
def bootability_record (subpath : List Char) (e : BundleEntry) : CpioRecord :=
  let st := { e.stat with st_uid := 0, st_gid := 0 }
  let withData := stat_is_lnk_or_reg e.stat.st_mode && e.stat.st_size ≠ 0
  { name := subpath
    header := cpio_header subpath st withData
    data := if withData then some e.contents else none }

/-- The full record stream of a successful BootabilityBundle reply
(restore.c:3123-3131): each archive entry that passes the path filter,
followed by the trailer record. -/
def bootability_cpio_stream (entries : List BundleEntry) : List CpioRecord :=
  (entries.filterMap (fun e => (bootability_subpath e.name).map
    (fun sp => bootability_record sp e))) ++ [cpio_trailer_record]

/-- C8 (counterexample): the claim says every header field of the trailer
record is zero except c_nlink; but c_namesize encodes 11 (octal 13), the
length of TRAILER!!! plus its NUL terminator, and c_magic is the literal
070707 - neither encodes zero. -/
theorem cpio_trailer_counterexample :
    cpio_trailer_record.header.c_namesize = "000013".data ∧
    cpio_trailer_record.header.c_namesize ≠ octalField 6 0 ∧
    cpio_trailer_record.header.c_magic ≠ octalField 6 0 := by
  refine ⟨?_, ?_, ?_⟩ <;> decide

/-- C8 (amended): every BootabilityBundle CPIO stream sent to the device ends
with a trailer record named TRAILER!!! whose stat-derived header fields
(c_dev, c_ino, c_mode, c_uid, c_gid, c_rdev, c_mtime) all encode zero, whose
c_nlink encodes 1, whose c_filesize stays all ASCII zeros, whose c_namesize
encodes 11 (the name TRAILER!!! plus its NUL terminator), and whose magic is
070707. -/
theorem cpio_stream_ends_with_trailer (entries : List BundleEntry) :
    (bootability_cpio_stream entries).getLast? = some cpio_trailer_record ∧
    cpio_trailer_record.name = "TRAILER!!!".data ∧
    cpio_trailer_record.header.c_dev = octalField 6 0 ∧
    cpio_trailer_record.header.c_ino = octalField 6 0 ∧
    cpio_trailer_record.header.c_mode = octalField 6 0 ∧
    cpio_trailer_record.header.c_uid = octalField 6 0 ∧
    cpio_trailer_record.header.c_gid = octalField 6 0 ∧
    cpio_trailer_record.header.c_nlink = octalField 6 1 ∧
    cpio_trailer_record.header.c_rdev = octalField 6 0 ∧
    cpio_trailer_record.header.c_mtime = octalField 11 0 ∧
    cpio_trailer_record.header.c_namesize = octalField 6 11 ∧
    cpio_trailer_record.header.c_filesize = List.replicate 11 (Char.ofNat 48) ∧
    cpio_trailer_record.header.c_magic = "070707".data := by
  refine ⟨?_, by decide, by decide, by decide, by decide, by decide, by decide,
    by decide, by decide, by decide, by decide, by decide, by decide⟩
  rw [bootability_cpio_stream]
  exact List.getLast?_concat _

/-! ## Progress mapper (restore_progress_string, restore.c:507-639, and
restore_handle_progress_msg, restore.c:661-721) -/

/-- Modelled from the spec: the numeric values of the operation-code constants
live in restore.h, which is not under src/ (restore.c names them only
symbolically).  The spec fixes UPDATE_GAS_GAUGE: scenario S6 states that under
protocol version 13 Operation 47 is adapted to code 48 and reported as
\x22Updating gas gauge software\x22, so UPDATE_GAS_GAUGE = 48. -/
def UPDATE_GAS_GAUGE : Nat := 48

/-- Modelled from the spec: restore.h value not under src/.  Per S6 the
adapted code 48 triggers no registered stage callback, so the codes of the
stage-registered operations are distinct from 48; their exact values are
otherwise irrelevant to the claims and are chosen here in the order of the
string table of the source. -/
def VERIFY_RESTORE : Nat := 14

/-- Modelled from the spec: restore.h value not under src/; see
VERIFY_RESTORE. -/
def FLASH_FIRMWARE : Nat := 18

/-- Modelled from the spec: restore.h value not under src/; see
VERIFY_RESTORE. -/
def UPDATE_BASEBAND : Nat := 19

/-- Modelled from the spec: restore.h value not under src/; see
VERIFY_RESTORE. -/
def REQUESTING_FUD_DATA : Nat := 36

/-- Modelled from the spec: restore.h value not under src/; see
VERIFY_RESTORE. -/
def UPDATE_IR_MCU_FIRMWARE : Nat := 53

/-- Modelled from the spec: restore.h value not under src/; see
VERIFY_RESTORE. -/
def UPDATE_ROSE : Nat := 62

/-- Modelled from the spec: restore.h value not under src/; see
VERIFY_RESTORE. -/
def UPDATE_VERIDIAN : Nat := 63

/-- Modelled from the spec: restore.h value not under src/; see
VERIFY_RESTORE. -/
def REQUESTING_EAN_DATA : Nat := 68

/-- The operation-code -> stage-string table of restore_progress_string
(restore.c:507-639), restricted to the rows whose numeric codes this
development models (the remaining rows are further cases on other restore.h
constants and behave like the default here); the default is the original
\x22Unknown operation\x22.  The row for UPDATE_GAS_GAUGE is the one the claims
evaluate (restore.c:580-581). -/
def restore_progress_string (operation : Nat) : String :=
  if operation = VERIFY_RESTORE then "Verifying restore"
  else if operation = FLASH_FIRMWARE then "Flashing firmware"
  else if operation = UPDATE_BASEBAND then "Updating baseband"
  else if operation = UPDATE_GAS_GAUGE then "Updating gas gauge software"
  else if operation = UPDATE_IR_MCU_FIRMWARE then "Updating IR MCU firmware"
  else if operation = REQUESTING_FUD_DATA then "Requesting FUD data"
  else if operation = UPDATE_ROSE then "Updating Rose"
  else if operation = UPDATE_VERIDIAN then "Updating Veridian"
  else if operation = REQUESTING_EAN_DATA then "Requesting EAN Data"
  else "Unknown operation"

/-- Operation-code adaptation of restore_handle_progress_msg
(restore.c:681-687): for restore protocol versions below 14 every operation
code above 35 is incremented by one before lookup. -/
def adapt_operation (protocol_version operation : Nat) : Nat :=
  if protocol_version < 14 ∧ operation > 35 then operation + 1 else operation

/-- The progress sink stages of idevicerestore_progress that
restore_handle_progress_msg drives. -/
inductive RestoreStep
  | verify_fs
  | flash_fw
  | flash_bb
  | fud
  deriving DecidableEq

/-- Observable outcome of restore_handle_progress_msg for one ProgressMsg. -/
inductive ProgressAction
  | callback (step : RestoreStep) (progress : Nat)
  | silent
  | logged_unhandled
  | logged_out_of_range
  deriving DecidableEq

/-- The dispatch of restore_handle_progress_msg (restore.c:689-717): for a
progress value in (0,100] the adapted operation selects a registered progress
sink stage (VERIFY_RESTORE, FLASH_FIRMWARE, UPDATE_BASEBAND and
UPDATE_IR_MCU_FIRMWARE, REQUESTING_FUD_DATA), is silently accepted
(UPDATE_ROSE, UPDATE_VERIDIAN, REQUESTING_EAN_DATA), or falls to the default
branch which only debug-logs it; out-of-range progress values are only
info-logged. -/
def restore_handle_progress_action (protocol_version operation progress : Nat) :
    ProgressAction :=
  let adapted := adapt_operation protocol_version operation
  if 0 < progress ∧ progress ≤ 100 then
    if adapted = VERIFY_RESTORE then .callback .verify_fs progress
    else if adapted = FLASH_FIRMWARE then .callback .flash_fw progress
    else if adapted = UPDATE_BASEBAND then .callback .flash_bb progress
    else if adapted = UPDATE_IR_MCU_FIRMWARE then .callback .flash_bb progress
    else if adapted = REQUESTING_FUD_DATA then .callback .fud progress
    else if adapted = UPDATE_ROSE then .silent
    else if adapted = UPDATE_VERIDIAN then .silent
    else if adapted = REQUESTING_EAN_DATA then .silent
    else .logged_unhandled
  else .logged_out_of_range

/-- C7: under negotiated protocol version 13 a ProgressMsg with Operation=47
is adapted to operation code 48 before lookup, reported with the stage string
"Updating gas gauge software", and a Progress of 50 for it reaches no
registered stage callback - it falls into the (debug-logged) default branch. -/
theorem progress_op47_proto13_gas_gauge :
    adapt_operation 13 47 = 48 ∧
    restore_progress_string (adapt_operation 13 47) = "Updating gas gauge software" ∧
    restore_handle_progress_action 13 47 50 = .logged_unhandled := by
  refine ⟨by decide, by decide, by decide⟩

/-! ## RootTicket replies (restore_send_root_ticket, restore.c:996-1046) -/

/-- A byte string. -/
abbrev Bytes := List Nat

/-- The two signed-ticket slots of a TSS / ticket-authority response that the
root-ticket path consults. -/
structure TssResponse where
  apImg4Ticket : Option Bytes := none
  apTicket : Option Bytes := none
  deriving DecidableEq

/-- Modelled from the spec: tss_response_get_ap_img4_ticket lives in tss.c,
which is not under src/.  Per the spec the driver consults the presence of the
subsystem key ApImg4Ticket in the ticket response; the accessor yields its
data and fails (returns a negative value in C, here none) when the response or
the key is absent. -/
def tss_response_get_ap_img4_ticket (tss : Option TssResponse) : Option Bytes :=
  tss.bind (fun r => r.apImg4Ticket)

/-- Modelled from the spec: tss_response_get_ap_ticket lives in tss.c, not
under src/; accessor for the legacy APTicket slot, failing when absent. -/
def tss_response_get_ap_ticket (tss : Option TssResponse) : Option Bytes :=
  tss.bind (fun r => r.apTicket)

/-- Outcome of restore_send_root_ticket: either the dictionary handed to
restored_send, or the error return. -/
inductive RootTicketReply
  | sent (dict : List (String × Bytes))
  | failed
  deriving DecidableEq

/-- Embedding of restore_send_root_ticket (restore.c:996-1046) up to the send
itself: with a user-supplied root ticket the reply carries it verbatim;
otherwise a missing TSS response is fatal unless the CUSTOM flag is set, the
image4-capable branch reads the ApImg4Ticket slot (fatal when absent), the
legacy branch reads the APTicket slot (fatal when absent, but skipped
entirely under CUSTOM), and RootTicketData is included only for non-empty
data. -/
def restore_send_root_ticket (root_ticket : Option Bytes) (tss : Option TssResponse)
    (image4supported custom : Bool) : RootTicketReply :=
  match root_ticket with
  | some rt => .sent [("RootTicketData", rt)]
  | none =>
    if tss.isNone && !custom then .failed
    else if image4supported then
      match tss_response_get_ap_img4_ticket tss with
      | none => .failed
      | some d => .sent (if d.length > 0 then [("RootTicketData", d)] else [])
    else if !custom then
      match tss_response_get_ap_ticket tss with
      | none => .failed
      | some d => .sent (if d.length > 0 then [("RootTicketData", d)] else [])
    else .sent []

/-- C6: with no user-supplied root ticket, an image4-capable device whose
ticket response carries ApImg4Ticket (32 bytes 0xA5) is answered with exactly
that data under RootTicketData, a legacy device whose response carries
APTicket (16 bytes 0x01) with that data, and in general the image4 slot is
read iff image4supported is true, the legacy AP ticket slot otherwise. -/
theorem root_ticket_slot_selection (tssr : TssResponse) (d : Bytes) (hne : d ≠ []) :
    (restore_send_root_ticket none
        (some { apImg4Ticket := some (List.replicate 32 165) }) true false
      = .sent [("RootTicketData", List.replicate 32 165)]) ∧
    (restore_send_root_ticket none
        (some { apTicket := some (List.replicate 16 1) }) false false
      = .sent [("RootTicketData", List.replicate 16 1)]) ∧
    (tssr.apImg4Ticket = some d →
      restore_send_root_ticket none (some tssr) true false
        = .sent [("RootTicketData", d)]) ∧
    (tssr.apTicket = some d →
      restore_send_root_ticket none (some tssr) false false
        = .sent [("RootTicketData", d)]) := by
  have hlen : d.length > 0 := List.length_pos.mpr hne
  refine ⟨by decide, by decide, ?_, ?_⟩
  · intro h
    simp [restore_send_root_ticket, tss_response_get_ap_img4_ticket, h, hlen]
  · intro h
    simp [restore_send_root_ticket, tss_response_get_ap_ticket, h, hlen]

/-- Witness for root_ticket_slot_selection at a concrete response and ticket. -/
theorem root_ticket_slot_selection_witness :
    restore_send_root_ticket none
        (some { apImg4Ticket := some (List.replicate 32 165) }) true false
      = .sent [("RootTicketData", List.replicate 32 165)] :=
  (root_ticket_slot_selection
    { apImg4Ticket := some (List.replicate 32 165) }
    (List.replicate 32 165) (by decide)).1

/-! ## NORData replies (restore_send_nor, restore.c:1112-1401) -/

/-- The Info sub-dictionary of one build-identity manifest entry, restricted to
the nodes restore_send_nor reads (restore.c:1196-1222).  A missing or
non-boolean node leaves the corresponding C flag at 0, so absent nodes are
plain false here; path is None when the entry carries no Info.Path node. -/
structure ManifestEntryInfo where
  isFirmwarePayload : Bool := false
  isLoadedByiBoot : Bool := false
  isSecondaryFirmwarePayload : Bool := false
  path : Option String := none
  deriving DecidableEq

/-- Firmware-files discovery from the build identity manifest, the fallback
branch of restore_send_nor used when the firmware directory has no manifest
file (restore.c:1182-1228): a manifest entry contributes its component name
and Info.Path iff Info.IsFirmwarePayload is set or both
Info.IsSecondaryFirmwarePayload and Info.IsLoadedByiBoot are set, and iff the
entry has an Info.Path node at all.  The list is in dictionary iteration
order. -/
def firmware_files_from_identity (manifest : List (String × ManifestEntryInfo)) :
    List (String × String) :=
  manifest.filterMap (fun ce =>
    if ce.2.isFirmwarePayload || (ce.2.isSecondaryFirmwarePayload && ce.2.isLoadedByiBoot) then
      ce.2.path.map (fun p => (ce.1, p))
    else none)

/-- Firmware-files discovery from the firmware directory manifest file, the
primary branch of restore_send_nor (restore.c:1169-1181): each non-empty line
of the manifest file is mapped through get_component_name (external,
idevicerestore.c, not under src/, abstracted as a parameter) and resolves to
firmware_path/filename. -/
def firmware_files_from_manifest_file (get_component_name : String → Option String)
    (firmware_path : String) (lines : List String) : List (String × String) :=
  lines.filterMap (fun fn =>
    if fn = "" then none
    else (get_component_name fn).map (fun comp => (comp, firmware_path ++ "/" ++ fn)))

/-- strncmp("iBoot", component, 5) == 0 (restore.c:1318): the component name
starts with iBoot. -/
def starts_with_iboot (s : String) : Bool :=
  "iBoot".data.isPrefixOf s.data

/-- Loop body of the NorImageData construction (restore.c:1266-1330) for one
firmware-files entry: LLB and RestoreSEP are skipped (they travel under the
separate LlbImageData / RestoreSEPImageData keys, restore.c:1255 and 1357);
in the dict form (flash_version_1) the personalized data is stored under the
component name, in the array form an iBoot-prefixed component is inserted at
index 0 and every other component appended.  Entries are tagged here with the
component they came from; only the data part reaches the wire in the array
form.  `personalize` abstracts extract_component + personalize_component
(ipsw.c and the img4 support, not under src/). -/
def nor_image_step {β : Type} (personalize : String → String → β)
    (flash_version_1 : Bool) (norimage : List (String × β)) (cp : String × String) :
    List (String × β) :=
  if cp.1 = "LLB" || cp.1 = "RestoreSEP" then norimage
  else
    let entry := (cp.1, personalize cp.1 cp.2)
    if flash_version_1 then norimage ++ [entry]
    else if starts_with_iboot cp.1 then entry :: norimage
    else norimage ++ [entry]

/-- The NorImageData value built by restore_send_nor from the firmware-files
set (restore.c:1258-1333). -/
def build_nor_images {β : Type} (personalize : String → String → β)
    (flash_version_1 : Bool) (files : List (String × String)) : List (String × β) :=
  files.foldl (nor_image_step personalize flash_version_1) []

theorem nor_image_step_mem {β : Type} (personalize : String → String → β)
    (flash_version_1 : Bool) (acc : List (String × β)) (cp : String × String)
    (e : String × β) (he : e ∈ nor_image_step personalize flash_version_1 acc cp) :
    e ∈ acc ∨ (¬(cp.1 = "LLB" ∨ cp.1 = "RestoreSEP") ∧ e = (cp.1, personalize cp.1 cp.2)) := by
  rw [nor_image_step] at he
  by_cases hskip : (cp.1 = "LLB" || cp.1 = "RestoreSEP") = true
  · rw [if_pos hskip] at he
    exact Or.inl he
  · rw [if_neg hskip] at he
    have hns : ¬(cp.1 = "LLB" ∨ cp.1 = "RestoreSEP") := by
      intro hor
      apply hskip
      rcases hor with h1 | h1
      · rw [h1]; decide
      · rw [h1]; decide
    split at he
    · rcases List.mem_append.mp he with h | h
      · exact Or.inl h
      · exact Or.inr ⟨hns, List.mem_singleton.mp h⟩
    · split at he
      · rcases List.mem_cons.mp he with h | h
        · exact Or.inr ⟨hns, h⟩
        · exact Or.inl h
      · rcases List.mem_append.mp he with h | h
        · exact Or.inl h
        · exact Or.inr ⟨hns, List.mem_singleton.mp h⟩

theorem nor_images_entries_from_files {β : Type} (personalize : String → String → β)
    (flash_version_1 : Bool) :
    ∀ (files : List (String × String)) (acc : List (String × β)),
      ∀ e ∈ files.foldl (nor_image_step personalize flash_version_1) acc,
        e ∈ acc ∨ ∃ cp ∈ files,
          ¬(cp.1 = "LLB" ∨ cp.1 = "RestoreSEP") ∧ e = (cp.1, personalize cp.1 cp.2) := by
  intro files
  induction files with
  | nil => intro acc e he; exact Or.inl he
  | cons cp rest ih =>
    intro acc e he
    rw [List.foldl_cons] at he
    rcases ih (nor_image_step personalize flash_version_1 acc cp) e he
      with h | ⟨cp2, hmem, hns, heq⟩
    · rcases nor_image_step_mem personalize flash_version_1 acc cp e h with h2 | ⟨hns, heq⟩
      · exact Or.inl h2
      · exact Or.inr ⟨cp, List.mem_cons_self _ _, hns, heq⟩
    · exact Or.inr ⟨cp2, List.mem_cons_of_mem _ hmem, hns, heq⟩

theorem nor_array_iboot_head {β : Type} (personalize : String → String → β) :
    ∀ (files : List (String × String)) (acc : List (String × β)),
      ((∃ cp ∈ files, starts_with_iboot cp.1 = true) ∨
        (∃ hd, acc.head? = some hd ∧ starts_with_iboot hd.1 = true)) →
      ∃ hd, (files.foldl (nor_image_step personalize false) acc).head? = some hd ∧
        starts_with_iboot hd.1 = true := by
  intro files
  induction files with
  | nil =>
    intro acc h
    rcases h with ⟨cp, hmem, _⟩ | h
    · exact absurd hmem (List.not_mem_nil cp)
    · exact h
  | cons cp rest ih =>
    intro acc h
    rw [List.foldl_cons]
    by_cases hskip : (cp.1 = "LLB" || cp.1 = "RestoreSEP") = true
    · have hnib : starts_with_iboot cp.1 = false := by
        rcases Bool.or_eq_true_iff.mp hskip with h1 | h1
        · rw [decide_eq_true_eq.mp h1]; decide
        · rw [decide_eq_true_eq.mp h1]; decide
      have hstep : nor_image_step personalize false acc cp = acc := by
        rw [nor_image_step, if_pos hskip]
      rw [hstep]
      apply ih
      rcases h with ⟨cp2, hmem, hib⟩ | h
      · rcases List.mem_cons.mp hmem with heq | hmem2
        · rw [heq] at hib; rw [hib] at hnib; exact absurd hnib (by simp)
        · exact Or.inl ⟨cp2, hmem2, hib⟩
      · exact Or.inr h
    · by_cases hib : starts_with_iboot cp.1 = true
      · have hstep : nor_image_step personalize false acc cp
            = (cp.1, personalize cp.1 cp.2) :: acc := by
          rw [nor_image_step, if_neg hskip]
          simp only [if_neg (by simp : ¬(false = true)), if_pos hib]
        rw [hstep]
        apply ih
        exact Or.inr ⟨(cp.1, personalize cp.1 cp.2), rfl, hib⟩
      · have hstep : nor_image_step personalize false acc cp
            = acc ++ [(cp.1, personalize cp.1 cp.2)] := by
          rw [nor_image_step, if_neg hskip]
          simp only [if_neg (by simp : ¬(false = true)), if_neg hib]
        rw [hstep]
        apply ih
        rcases h with ⟨cp2, hmem, hib2⟩ | ⟨hd, hhd, hdib⟩
        · rcases List.mem_cons.mp hmem with heq | hmem2
          · rw [heq] at hib2; exact absurd hib2 hib
          · exact Or.inl ⟨cp2, hmem2, hib2⟩
        · refine Or.inr ⟨hd, ?_, hdib⟩
          rw [List.head?_append, hhd]
          rfl

/-- C2: in the array form of NorImageData (no FlashVersion1 argument), if any
included component name starts with iBoot then the entry at array index 0 is
the personalized data of a component whose name starts with iBoot - for every
iteration order of the firmware-files set, since `files` here is an arbitrary
association list. -/
theorem nor_array_iboot_first {β : Type} (personalize : String → String → β)
    (files : List (String × String))
    (h : ∃ cp ∈ files, starts_with_iboot cp.1 = true) :
    ∃ hd, (build_nor_images personalize false files).head? = some hd ∧
      starts_with_iboot hd.1 = true ∧
      ∃ cp ∈ files, hd = (cp.1, personalize cp.1 cp.2) := by
  obtain ⟨hd, hhd, hib⟩ := nor_array_iboot_head personalize files [] (Or.inl h)
  refine ⟨hd, hhd, hib, ?_⟩
  have hmem : hd ∈ build_nor_images personalize false files :=
    List.mem_of_mem_head? (Option.mem_def.mpr hhd)
  rcases nor_images_entries_from_files personalize false files [] hd hmem
    with h0 | ⟨cp, hcp, _, heq⟩
  · exact absurd h0 (List.not_mem_nil hd)
  · exact ⟨cp, hcp, heq⟩

/-- Witness for nor_array_iboot_first: a firmware-files set listing LLB, a
DeviceTree and iBoot, in an order that exercises both the skip and the
append paths. -/
theorem nor_array_iboot_first_witness :
    ∃ hd, (build_nor_images (fun c p => (c, p)) false
        [("LLB", "f/LLB.img4"), ("DeviceTree", "f/dt.img4"), ("iBoot", "f/iBoot.img4")]).head?
        = some hd ∧
      starts_with_iboot hd.1 = true ∧
      ∃ cp ∈ [("LLB", "f/LLB.img4"), ("DeviceTree", "f/dt.img4"), ("iBoot", "f/iBoot.img4")],
        hd = (cp.1, (fun (c p : String) => (c, p)) cp.1 cp.2) :=
  nor_array_iboot_first (fun c p => (c, p))
    [("LLB", "f/LLB.img4"), ("DeviceTree", "f/dt.img4"), ("iBoot", "f/iBoot.img4")]
    ⟨("iBoot", "f/iBoot.img4"), by decide, by decide⟩

/-- The manifest exhibiting the C1 counterexample: Foo is flagged as a
firmware payload but its manifest entry carries no Info.Path node; Bar is a
regular firmware payload with a path. -/
def c1_cex_manifest : List (String × ManifestEntryInfo) :=
  [("Foo", { isFirmwarePayload := true }),
   ("Bar", { isFirmwarePayload := true, path := some "all_flash/bar.img4" })]

/-- C1 (counterexample): the claim asserts every manifest component with
IsFirmwarePayload=true appears in the NORData firmware-files set, but
restore_send_nor only adds a flagged component when its manifest entry also
carries an Info.Path node (restore.c:1217-1222): Foo is flagged yet absent
from the computed set. -/
theorem nor_firmware_files_counterexample :
    (c1_cex_manifest.any (fun ce => ce.1 = "Foo" && ce.2.isFirmwarePayload)) = true ∧
    ((firmware_files_from_identity c1_cex_manifest).map Prod.fst).contains "Foo" = false ∧
    firmware_files_from_identity c1_cex_manifest = [("Bar", "all_flash/bar.img4")] := by
  refine ⟨by decide, by decide, by decide⟩

/-- C1 (amended): the NorImageData image list built by restore_send_nor never
contains an entry for LLB or for RestoreSEP (those travel only under the
LlbImageData and RestoreSEPImageData keys), and - when firmware discovery
falls back to the build identity manifest - every manifest component with
Info.IsFirmwarePayload=true, or with IsSecondaryFirmwarePayload=true and
IsLoadedByiBoot=true, whose manifest entry carries an Info.Path, appears in
the NORData firmware-files set. -/
theorem nor_exclusions_and_firmware_files {β : Type} (personalize : String → String → β)
    (flash_version_1 : Bool) (files : List (String × String))
    (manifest : List (String × ManifestEntryInfo)) (c : String) (e : ManifestEntryInfo)
    (p : String) (hmem : (c, e) ∈ manifest)
    (hflag : (e.isFirmwarePayload || (e.isSecondaryFirmwarePayload && e.isLoadedByiBoot)) = true)
    (hpath : e.path = some p) :
    (∀ entry ∈ build_nor_images personalize flash_version_1 files,
        entry.1 ≠ "LLB" ∧ entry.1 ≠ "RestoreSEP") ∧
    (c, p) ∈ firmware_files_from_identity manifest := by
  constructor
  · intro entry hentry
    rcases nor_images_entries_from_files personalize flash_version_1 files [] entry hentry
      with h0 | ⟨cp, _, hns, heq⟩
    · exact absurd h0 (List.not_mem_nil entry)
    · rw [heq]
      exact ⟨fun h1 => hns (Or.inl h1), fun h1 => hns (Or.inr h1)⟩
  · rw [firmware_files_from_identity, List.mem_filterMap]
    exact ⟨(c, e), hmem, by rw [if_pos hflag, hpath]; rfl⟩

/-- Witness for nor_exclusions_and_firmware_files at a concrete firmware-files
set and the Bar entry of the counterexample manifest. -/
theorem nor_exclusions_and_firmware_files_witness :
    (∀ entry ∈ build_nor_images (fun c p => (c, p)) false
        [("LLB", "f/LLB.img4"), ("iBoot", "f/iBoot.img4")],
      entry.1 ≠ "LLB" ∧ entry.1 ≠ "RestoreSEP") ∧
    ("Bar", "all_flash/bar.img4") ∈ firmware_files_from_identity c1_cex_manifest :=
  nor_exclusions_and_firmware_files (fun c p => (c, p)) false
    [("LLB", "f/LLB.img4"), ("iBoot", "f/iBoot.img4")] c1_cex_manifest
    "Bar" { isFirmwarePayload := true, path := some "all_flash/bar.img4" }
    "all_flash/bar.img4" (by decide) (by decide) (by decide)

/-! ## Baseband ticket caching across BasebandData requests
(restore_send_baseband_data, restore.c:1779-1943, and the session seeding in
restore_device, restore.c:3888-3890) -/

/-- Per-request observables of one restore_send_baseband_data call over the
session cache client->restore->bbtss. -/
structure BBStepResult (R : Type) where
  cachedNow : Bool
  signing : R
  state : Option R
  deriving DecidableEq

/-- One restore_send_baseband_data call (restore.c:1818-1905): a fresh TSS
response is fetched when the request carries no Nonce argument or when no
response is cached yet (restore.c:1818); the response is stored into the
session cache exactly when a nonce is present and the cache is still empty
(restore.c:1899-1903); restore_sign_bbfw then signs with the cached response
when one exists, the fresh response otherwise (restore.c:1905).  `st` is the
cache on entry, `nonce` the Nonce argument of the request, `fresh` the response
tss_request_send (external transport) would return for this request. -/
def baseband_data_step {R : Type} (st : Option R) (nonce : Option Bytes) (fresh : R) :
    BBStepResult R :=
  let fetched : Option R := if nonce.isNone || st.isNone then some fresh else none
  let cache_now := nonce.isSome && st.isNone
  let st2 := if cache_now then fetched else st
  let signing := match st2, fetched with
    | some r, _ => r
    | none, some f => f
    | none, none => fresh
  { cachedNow := cache_now, signing := signing, state := st2 }

/-- A whole session of BasebandData requests, folded over the cache:
for each request (its Nonce argument and the response the TSS would serve it)
the trace records whether the cache was written and which response was used
for signing. -/
def baseband_data_run {R : Type} : Option R → List (Option Bytes × R) →
    List (Bool × R) × Option R
  | st, [] => ([], st)
  | st, (nonce, fresh) :: rest =>
    let step := baseband_data_step st nonce fresh
    let tail := baseband_data_run step.state rest
    ((step.cachedNow, step.signing) :: tail.1, tail.2)

/-- The caching discipline of the claim, written from its words for comparison with
the source embedding: starting from an empty cache, every request before the
first one carrying a BbNonce stores nothing and signs with its own fresh
response; the first nonce-carrying request caches its response; every later
request stores nothing and signs with that cached response. -/
def baseband_cache_spec {R : Type} : List (Option Bytes × R) → List (Bool × R)
  | [] => []
  | (none, fresh) :: rest => (false, fresh) :: baseband_cache_spec rest
  | (some _, fresh) :: rest => (true, fresh) :: rest.map (fun _ => (false, fresh))

theorem baseband_data_run_cached {R : Type} (r : R) :
    ∀ (reqs : List (Option Bytes × R)),
      baseband_data_run (some r) reqs = (reqs.map (fun _ => (false, r)), some r) := by
  intro reqs
  induction reqs with
  | nil => rfl
  | cons q rest ih =>
    obtain ⟨nonce, fresh⟩ := q
    have hstep : baseband_data_step (some r) nonce fresh
        = { cachedNow := false, signing := r, state := some r } := by
      rw [baseband_data_step]
      cases nonce <;> rfl
    rw [baseband_data_run, hstep]
    rw [ih]
    rfl

/-- C3: the baseband ticket response is cached exactly once per session -
namely at the first BasebandData request that carries a device-provided
BbNonce while no response is cached yet - and every later request in the
session stores nothing new and signs with that cached response; requests
before the first nonce-carrying one each sign with their own freshly fetched
response.  Moreover (restore.c:3888-3890) when the session cache was already
seeded before the first request, no request ever caches and all of them sign
with the seeded response. -/
theorem baseband_cached_exactly_once {R : Type} (reqs : List (Option Bytes × R)) :
    (baseband_data_run (none : Option R) reqs).1 = baseband_cache_spec reqs ∧
    ((baseband_data_run (none : Option R) reqs).1.countP (fun q => q.1)
      = if reqs.any (fun q => q.1.isSome) then 1 else 0) ∧
    (∀ r0 : R, (baseband_data_run (some r0) reqs).1 = reqs.map (fun _ => (false, r0))) := by
  refine ⟨?_, ?_, fun r0 => congrArg Prod.fst (baseband_data_run_cached r0 reqs)⟩
  · induction reqs with
    | nil => rfl
    | cons q rest ih =>
      obtain ⟨nonce, fresh⟩ := q
      cases nonce with
      | none =>
        have hstep : baseband_data_step (none : Option R) none fresh
            = { cachedNow := false, signing := fresh, state := none } := rfl
        rw [baseband_data_run, hstep, baseband_cache_spec]
        rw [show (baseband_data_run (none : Option R) rest).1 = baseband_cache_spec rest
          from ih]
      | some nb =>
        have hstep : baseband_data_step (none : Option R) (some nb) fresh
            = { cachedNow := true, signing := fresh, state := some fresh } := rfl
        rw [baseband_data_run, hstep, baseband_cache_spec]
        rw [show (baseband_data_run (some fresh) rest).1 = rest.map (fun _ => (false, fresh))
          from congrArg Prod.fst (baseband_data_run_cached fresh rest)]
  · induction reqs with
    | nil => rfl
    | cons q rest ih =>
      obtain ⟨nonce, fresh⟩ := q
      cases nonce with
      | none =>
        have hstep : baseband_data_step (none : Option R) none fresh
            = { cachedNow := false, signing := fresh, state := none } := rfl
        rw [baseband_data_run, hstep]
        simpa using ih
      | some nb =>
        have hstep : baseband_data_step (none : Option R) (some nb) fresh
            = { cachedNow := true, signing := fresh, state := some fresh } := rfl
        rw [baseband_data_run, hstep]
        rw [show (baseband_data_run (some fresh) rest).1 = rest.map (fun _ => (false, fresh))
          from congrArg Prod.fst (baseband_data_run_cached fresh rest)]
        simp [List.countP_map, List.countP_eq_zero]

/-! ## Baseband archive repack (restore_sign_bbfw, restore.c:1443-1777, and
restore_get_bbfw_fn_for_element, restore.c:1403-1441) -/

/-- The element-to-filename table restore_get_bbfw_fn_for_element
(restore.c:1403-1441), translated row for row. -/
def restore_get_bbfw_fn_for_element (elem : List Char) : Option (List Char) :=
  if elem = "RamPSI".data then some "psi_ram.fls".data
  else if elem = "FlashPSI".data then some "psi_flash.fls".data
  else if elem = "eDBL".data then some "dbl.mbn".data
  else if elem = "RestoreDBL".data then some "restoredbl.mbn".data
  else if elem = "DBL".data then some "dbl.mbn".data
  else if elem = "ENANDPRG".data then some "ENPRG.mbn".data
  else if elem = "RestoreSBL1".data then some "restoresbl1.mbn".data
  else if elem = "SBL1".data then some "sbl1.mbn".data
  else if elem = "RestorePSI".data then some "restorepsi.bin".data
  else if elem = "PSI".data then some "psi_ram.bin".data
  else if elem = "RestorePSI2".data then some "restorepsi2.bin".data
  else if elem = "PSI2".data then some "psi_ram2.bin".data
  else if elem = "Misc".data then some "multi_image.mbn".data
  else none

/-- strrchr(fn, '.') as the repack uses it: the file extension including its
dot, None when the name has no dot. -/
def file_ext (fn : List Char) : Option (List Char) :=
  let tail := (fn.reverse.takeWhile (fun c => c ≠ '.')).reverse
  if tail.length = fn.length then none else some ('.' :: tail)

/-- zip_name_locate (libzip, external): index and contents of the first entry
of the archive carrying the given name. -/
def zip_name_locate : List (List Char × Bytes) → List Char → Option (Nat × Bytes)
  | [], _ => none
  | (fn, c) :: rest, target =>
    if fn = target then some (0, c)
    else (zip_name_locate rest target).map (fun ic => (ic.1 + 1, ic.2))

/-- The two external container-format hooks the repack drives, abstracted as
functions: `sign_content` is the read-parse-update_sig_blob-serialize pipeline
for one archive member (mbn.c / fls.c, not under src/; the flag is the
is_fls switch picking the parser), returning none when the parse or the
signature install fails; `insert_ticket` is fls_parse + fls_insert_ticket +
serialize for ebl.fls, returning none on parse or insert failure. -/
structure BbfwParsers where
  sign_content : Bool → Bytes → Bytes → Option Bytes
  insert_ticket : Bytes → Bytes → Option Bytes

/-- The parts of the Baseband TSS response restore_sign_bbfw reads: the
BBTicket data node and the BasebandFirmware dictionary (none models a missing
or wrongly-typed node).  A dictionary value is `some data` for a PLIST_DATA
node and `none` for a node of any other type (which the -Blob scan skips). -/
structure BbTssResponse where
  bbticket : Option Bytes := none
  basebandFirmware : Option (List (List Char × Option Bytes)) := none

/-- Failure taxonomy of restore_sign_bbfw: each constructor is one of the
error returns of restore.c:1443-1777.  Out-of-memory and libzip-internal
read/stat failures are I/O conditions outside this embedding. -/
inductive BbfwErr
  | noBBTicket
  | noBasebandFirmwareDict
  | elementUnmapped (elem : List Char)
  | fileNotInArchive (fn : List Char)
  | parseOrSignFailed (fn : List Char)
  | eblNotFound
  | ticketInsertFailed
  deriving DecidableEq

/-- Mutable state of the -Blob scan (restore.c:1487-1617): the staged archive,
the indices recorded in signed_file_idxs, and the sticky is_fls flag (set when
a .fls element is met and never cleared). -/
structure BbfwSignState where
  archive : List (List Char × Bytes)
  signed_idxs : List Nat
  is_fls : Bool
  deriving DecidableEq

/-- The -Blob scan of restore_sign_bbfw (restore.c:1492-1617): for each
BasebandFirmware key that is a PLIST_DATA node and ends in -Blob, the element
name (the part before the first dash, as the strchr truncation yields it) is
mapped to its archive filename, the entry is located, parsed, its signature
blob installed, and the staged archive entry replaced; the entry index is
recorded as signed except that without a nonce only the RamPSI element of an
fls archive is recorded (restore.c:1608-1614). -/
def bbfw_sign_blobs (P : BbfwParsers) (bb_nonce_present : Bool) :
    BbfwSignState → List (List Char × Option Bytes) → Except BbfwErr BbfwSignState
  | st, [] => .ok st
  | st, (key, node) :: rest =>
    if node.isSome && "-Blob".data.isSuffixOf key then
      match restore_get_bbfw_fn_for_element (key.takeWhile (fun c => c ≠ '-')) with
      | none => .error (.elementUnmapped (key.takeWhile (fun c => c ≠ '-')))
      | some signfn =>
        match zip_name_locate st.archive signfn with
        | none => .error (.fileNotInArchive signfn)
        | some ic =>
          match P.sign_content (st.is_fls || decide (file_ext signfn = some ".fls".data))
              ic.2 (node.getD []) with
          | none => .error (.parseOrSignFailed signfn)
          | some newContent =>
            bbfw_sign_blobs P bb_nonce_present
              ⟨st.archive.set ic.1 (signfn, newContent),
               if (st.is_fls || decide (file_ext signfn = some ".fls".data))
                   && !bb_nonce_present then
                 if key.takeWhile (fun c => c ≠ '-') = "RamPSI".data then
                   st.signed_idxs ++ [ic.1]
                 else st.signed_idxs
               else st.signed_idxs ++ [ic.1],
               st.is_fls || decide (file_ext signfn = some ".fls".data)⟩ rest
    else bbfw_sign_blobs P bb_nonce_present st rest

/-- The extension whitelist of the deletion loop (restore.c:1631-1640). -/
def bbfw_allowed_ext (fn : List Char) : Bool :=
  match file_ext fn with
  | some ext => ext = ".fls".data || ext = ".mbn".data ||
      ext = ".elf".data || ext = ".bin".data
  | none => false

/-- The deletion loop of restore_sign_bbfw (restore.c:1620-1644): an entry of
the staged archive survives iff its index was recorded as signed, or - when a
device nonce is present - its filename extension is .fls/.mbn/.elf/.bin.
Entries are kept with their original archive index. -/
def bbfw_keep_filter (bb_nonce_present : Bool) (signed_idxs : List Nat)
    (archive : List (List Char × Bytes)) : List (Nat × List Char × Bytes) :=
  archive.enum.filter (fun ie =>
    signed_idxs.contains ie.1 || (bb_nonce_present && bbfw_allowed_ext ie.2.1))

/-- Outcome of a successful repack: the surviving original entries (with
their original archive index), the entries newly added (bbticket.der on the
MBN path), and the recorded signed indices. -/
structure BbfwResult where
  retained : List (Nat × List Char × Bytes)
  added : List (List Char × Bytes)
  signed_idxs : List Nat
  deriving DecidableEq

/-- restore_sign_bbfw (restore.c:1443-1777): checks BBTicket and
BasebandFirmware in the ticket response, runs the -Blob scan, deletes
everything but the required files, and - when a nonce is present - either
inserts the BBTicket into ebl.fls (fls path) or adds it verbatim as
bbticket.der (mbn path).  The staged archive is committed by zip_close only
when every step succeeded; any error path runs zip_unchange_all first
(restore.c:1760-1770). -/
def restore_sign_bbfw (P : BbfwParsers) (bbtss : BbTssResponse) (bb_nonce : Option Bytes)
    (archive : List (List Char × Bytes)) : Except BbfwErr BbfwResult :=
  match bbtss.bbticket with
  | none => .error .noBBTicket
  | some ticket =>
    match bbtss.basebandFirmware with
    | none => .error .noBasebandFirmwareDict
    | some bbfw_dict =>
      match bbfw_sign_blobs P bb_nonce.isSome ⟨archive, [], false⟩ bbfw_dict with
      | .error e => .error e
      | .ok st =>
        if bb_nonce.isSome then
          if st.is_fls then
            match (bbfw_keep_filter bb_nonce.isSome st.signed_idxs st.archive).find?
                (fun ie => ie.2.1 = "ebl.fls".data) with
            | none => .error .eblNotFound
            | some ie =>
              match P.insert_ticket ie.2.2 ticket with
              | none => .error .ticketInsertFailed
              | some newC =>
                .ok ⟨(bbfw_keep_filter bb_nonce.isSome st.signed_idxs st.archive).map
                    (fun je => if je.1 = ie.1 then (je.1, "ebl.fls".data, newC) else je),
                  [], st.signed_idxs⟩
          else .ok ⟨bbfw_keep_filter bb_nonce.isSome st.signed_idxs st.archive,
            [("bbticket.der".data, ticket)], st.signed_idxs⟩
        else .ok ⟨bbfw_keep_filter bb_nonce.isSome st.signed_idxs st.archive,
          [], st.signed_idxs⟩

/-- The baseband archive on disk after restore_sign_bbfw returns: the staged
archive is committed only on success; every error path discards all staged
modifications via zip_unchange_all before closing (restore.c:1760-1770), so
the file is unchanged. -/
def restore_sign_bbfw_disk (P : BbfwParsers) (bbtss : BbTssResponse)
    (bb_nonce : Option Bytes) (archive : List (List Char × Bytes)) :
    List (List Char × Bytes) :=
  match restore_sign_bbfw P bbtss bb_nonce archive with
  | .ok r => r.retained.map (fun ie => ie.2) ++ r.added
  | .error _ => archive

theorem zip_name_locate_none (target : List Char) :
    ∀ l : List (List Char × Bytes), zip_name_locate l target = none →
      target ∉ l.map Prod.fst := by
  intro l
  induction l with
  | nil => intro _ hmem; simp at hmem
  | cons e rest ih =>
    obtain ⟨fn, c0⟩ := e
    intro hloc hmem
    rw [zip_name_locate] at hloc
    by_cases he : fn = target
    · rw [if_pos he] at hloc
      exact absurd hloc (by simp)
    · rw [if_neg he] at hloc
      rcases List.mem_cons.mp hmem with h1 | h1
      · exact he h1.symm
      · exact ih (Option.map_eq_none.mp hloc) h1

theorem zip_name_locate_set_names (target : List Char) (c2 : Bytes) :
    ∀ (l : List (List Char × Bytes)) (i : Nat) (c : Bytes),
      zip_name_locate l target = some (i, c) →
      (l.set i (target, c2)).map Prod.fst = l.map Prod.fst := by
  intro l
  induction l with
  | nil => intro i c h; rw [zip_name_locate] at h; exact absurd h (by simp)
  | cons e rest ih =>
    obtain ⟨fn, c0⟩ := e
    intro i c h
    rw [zip_name_locate] at h
    by_cases he : fn = target
    · rw [if_pos he] at h
      obtain ⟨hi, -⟩ : (0 : Nat) = i ∧ c0 = c := by simpa using h
      rw [← hi]
      simp [he]
    · rw [if_neg he] at h
      obtain ⟨⟨j, cj⟩, hj, hji⟩ := Option.map_eq_some'.mp h
      obtain ⟨hi, -⟩ : j + 1 = i ∧ cj = c := by simpa using hji
      rw [← hi]
      simp only [List.set_cons_succ, List.map_cons]
      rw [ih j cj hj]

theorem bbfw_sign_blobs_error_sound (P : BbfwParsers) (n : Bool) :
    ∀ (dict : List (List Char × Option Bytes)) (st : BbfwSignState) (e : BbfwErr),
      bbfw_sign_blobs P n st dict = .error e →
      (∀ elem, e = .elementUnmapped elem → ∃ kn ∈ dict, kn.2.isSome = true ∧
        "-Blob".data.isSuffixOf kn.1 = true ∧
        kn.1.takeWhile (fun ch => ch ≠ '-') = elem ∧
        restore_get_bbfw_fn_for_element elem = none) ∧
      (∀ fn, e = .fileNotInArchive fn → ∃ kn ∈ dict, kn.2.isSome = true ∧
        "-Blob".data.isSuffixOf kn.1 = true ∧
        restore_get_bbfw_fn_for_element (kn.1.takeWhile (fun ch => ch ≠ '-')) = some fn ∧
        fn ∉ st.archive.map Prod.fst) ∧
      (∀ fn, e = .parseOrSignFailed fn → ∃ kn ∈ dict, kn.2.isSome = true ∧
        "-Blob".data.isSuffixOf kn.1 = true ∧
        restore_get_bbfw_fn_for_element (kn.1.takeWhile (fun ch => ch ≠ '-')) = some fn ∧
        ∃ b cont blob, P.sign_content b cont blob = none) ∧
      (e ≠ .noBBTicket ∧ e ≠ .noBasebandFirmwareDict ∧
        e ≠ .eblNotFound ∧ e ≠ .ticketInsertFailed) := by
  intro dict
  induction dict with
  | nil =>
    intro st e h
    rw [bbfw_sign_blobs] at h
    exact absurd h (by simp)
  | cons kn rest ih =>
    obtain ⟨key, node⟩ := kn
    intro st e h
    rw [bbfw_sign_blobs] at h
    by_cases hproc : (node.isSome && "-Blob".data.isSuffixOf key) = true
    · rw [if_pos hproc] at h
      obtain ⟨hsome, hsuf⟩ := Bool.and_eq_true_iff.mp hproc
      split at h
      next htab =>
        have he : e = .elementUnmapped (key.takeWhile (fun ch => ch ≠ '-')) :=
          (Except.error.injEq _ _).mp h.symm
        subst he
        refine ⟨?_, ?_, ?_, by simp, by simp, by simp, by simp⟩
        · intro elem helem
          obtain rfl : key.takeWhile (fun ch => ch ≠ '-') = elem := by simpa using helem
          exact ⟨(key, node), List.mem_cons_self _ _, hsome, hsuf, rfl, htab⟩
        · intro fn hfn; exact absurd hfn (by simp)
        · intro fn hfn; exact absurd hfn (by simp)
      next signfn htab =>
        split at h
        next hloc =>
          have he : e = .fileNotInArchive signfn := (Except.error.injEq _ _).mp h.symm
          subst he
          refine ⟨?_, ?_, ?_, by simp, by simp, by simp, by simp⟩
          · intro elem helem; exact absurd helem (by simp)
          · intro fn hfn
            obtain rfl : signfn = fn := by simpa using hfn
            exact ⟨(key, node), List.mem_cons_self _ _, hsome, hsuf, htab,
              zip_name_locate_none signfn st.archive hloc⟩
          · intro fn hfn; exact absurd hfn (by simp)
        next ic hloc =>
          obtain ⟨i, cold⟩ := ic
          split at h
          next hsc =>
            have he : e = .parseOrSignFailed signfn := (Except.error.injEq _ _).mp h.symm
            subst he
            refine ⟨?_, ?_, ?_, by simp, by simp, by simp, by simp⟩
            · intro elem helem; exact absurd helem (by simp)
            · intro fn hfn; exact absurd hfn (by simp)
            · intro fn hfn
              obtain rfl : signfn = fn := by simpa using hfn
              exact ⟨(key, node), List.mem_cons_self _ _, hsome, hsuf, htab,
                ⟨_, _, _, hsc⟩⟩
          next newContent hsc =>
            obtain ⟨h1, h2, h3, h4⟩ := ih _ e h
            have hnames : (st.archive.set i (signfn, newContent)).map Prod.fst
                = st.archive.map Prod.fst :=
              zip_name_locate_set_names signfn newContent st.archive i cold hloc
            refine ⟨?_, ?_, ?_, h4⟩
            · intro elem helem
              obtain ⟨kn2, hm, hrest⟩ := h1 elem helem
              exact ⟨kn2, List.mem_cons_of_mem _ hm, hrest⟩
            · intro fn hfn
              obtain ⟨kn2, hm, ha, hb, hc, hd⟩ := h2 fn hfn
              refine ⟨kn2, List.mem_cons_of_mem _ hm, ha, hb, hc, ?_⟩
              simpa [hnames] using hd
            · intro fn hfn
              obtain ⟨kn2, hm, hrest⟩ := h3 fn hfn
              exact ⟨kn2, List.mem_cons_of_mem _ hm, hrest⟩
    · rw [if_neg hproc] at h
      obtain ⟨h1, h2, h3, h4⟩ := ih st e h
      refine ⟨?_, ?_, ?_, h4⟩
      · intro elem helem
        obtain ⟨kn2, hm, hrest⟩ := h1 elem helem
        exact ⟨kn2, List.mem_cons_of_mem _ hm, hrest⟩
      · intro fn hfn
        obtain ⟨kn2, hm, hrest⟩ := h2 fn hfn
        exact ⟨kn2, List.mem_cons_of_mem _ hm, hrest⟩
      · intro fn hfn
        obtain ⟨kn2, hm, hrest⟩ := h3 fn hfn
        exact ⟨kn2, List.mem_cons_of_mem _ hm, hrest⟩

theorem bbfw_keep_filter_mem (n : Bool) (s : List Nat) (a : List (List Char × Bytes)) :
    ∀ ie ∈ bbfw_keep_filter n s a,
      ie.1 ∈ s ∨ (n = true ∧ bbfw_allowed_ext ie.2.1 = true) := by
  intro ie hmem
  have h2 := List.of_mem_filter hmem
  rcases Bool.or_eq_true_iff.mp h2 with h3 | h3
  · exact Or.inl (List.elem_iff.mp h3)
  · obtain ⟨hn, ha⟩ := Bool.and_eq_true_iff.mp h3
    exact Or.inr ⟨hn, ha⟩

/-- C4: after restore_sign_bbfw completes a baseband repack successfully,
every archive entry that is retained either has its index in the set of
entries whose signature blob install was recorded during this run, or - when
a baseband nonce was present - has a filename extension in mbn/fls/elf/bin;
no other original entry remains (the newly added bbticket.der is an addition,
not a retained entry). -/
theorem bbfw_retained_signed_or_allowed (P : BbfwParsers) (bbtss : BbTssResponse)
    (bb_nonce : Option Bytes) (archive : List (List Char × Bytes)) (res : BbfwResult)
    (h : restore_sign_bbfw P bbtss bb_nonce archive = .ok res) :
    ∀ ie ∈ res.retained,
      ie.1 ∈ res.signed_idxs ∨
      (bb_nonce.isSome = true ∧ bbfw_allowed_ext ie.2.1 = true) := by
  rw [restore_sign_bbfw] at h
  split at h
  · exact absurd h (by simp)
  next ticket hbt =>
    split at h
    · exact absurd h (by simp)
    next dict hbf =>
      split at h
      next e2 hsb => exact absurd h (by simp)
      next st hsb =>
        split at h
        next hn =>
          split at h
          next hfls =>
            split at h
            next hebl => exact absurd h (by simp)
            next ie0 hebl =>
              split at h
              next hins => exact absurd h (by simp)
              next newC hins =>
                obtain rfl : res = _ := ((Except.ok.injEq _ _).mp h).symm
                intro ie hmem
                simp only [List.mem_map] at hmem
                obtain ⟨je, hje, hfe⟩ := hmem
                by_cases hidx : je.1 = ie0.1
                · rw [if_pos hidx] at hfe
                  rw [← hfe]
                  refine Or.inr ⟨hn, ?_⟩
                  show bbfw_allowed_ext "ebl.fls".data = true
                  decide
                · rw [if_neg hidx] at hfe
                  rw [← hfe]
                  rcases bbfw_keep_filter_mem bb_nonce.isSome st.signed_idxs st.archive
                    je hje with h1 | ⟨h1, h2⟩
                  · exact Or.inl h1
                  · exact Or.inr ⟨h1, h2⟩
          next hfls =>
            obtain rfl : res = _ := ((Except.ok.injEq _ _).mp h).symm
            intro ie hmem
            rcases bbfw_keep_filter_mem bb_nonce.isSome st.signed_idxs st.archive
              ie hmem with h1 | ⟨h1, h2⟩
            · exact Or.inl h1
            · exact Or.inr ⟨h1, h2⟩
        next hn =>
          obtain rfl : res = _ := ((Except.ok.injEq _ _).mp h).symm
          intro ie hmem
          rcases bbfw_keep_filter_mem bb_nonce.isSome st.signed_idxs st.archive
            ie hmem with h1 | ⟨h1, h2⟩
          · exact Or.inl h1
          · exact Or.inr ⟨h1, h2⟩

/-- Witness for bbfw_retained_signed_or_allowed: the S4 scenario - ticket with
DBL-Blob, ENANDPRG-Blob and BBTicket, archive with dbl.mbn, ENPRG.mbn and
README.txt, nonce present: both mbn files are signed and retained, README.txt
is dropped, bbticket.der is added. -/
theorem bbfw_retained_signed_or_allowed_witness :
    (0 : Nat) ∈ [0, 1] ∨
      ((some [7] : Option Bytes).isSome = true ∧
        bbfw_allowed_ext "dbl.mbn".data = true) :=
  bbfw_retained_signed_or_allowed
    ⟨fun _ c b => some (c ++ b), fun c t => some (c ++ t)⟩
    { bbticket := some [5, 5],
      basebandFirmware := some [("DBL-Blob".data, some [9]), ("ENANDPRG-Blob".data, some [8])] }
    (some [7])
    [("dbl.mbn".data, [1]), ("ENPRG.mbn".data, [2]), ("README.txt".data, [3])]
    (BbfwResult.mk
      [(0, "dbl.mbn".data, [1, 9]), (1, "ENPRG.mbn".data, [2, 8])]
      [("bbticket.der".data, [5, 5])] [0, 1])
    (by rfl) (0, "dbl.mbn".data, [1, 9]) (by decide)

/-- C5 (counterexample): the claim lists the failure causes of
restore_sign_bbfw exhaustively as archive-not-openable, element-to-filename
mismatch, missing mapped file, container parse failure, signature-install
failure and writeback failure; but the function also fails - before touching
the archive at all - when the ticket response carries no BBTicket data entry
(restore.c:1448-1452).  Here the BasebandFirmware dictionary is empty (so no
element can be unmapped, missing, or fail to parse or sign), the archive is
present and well-formed, the parser hooks never fail, yet the call errors. -/
theorem bbfw_fails_without_bbticket :
    restore_sign_bbfw ⟨fun _ c b => some (c ++ b), fun c t => some (c ++ t)⟩
      { bbticket := none, basebandFirmware := some [] } none [("dbl.mbn".data, [1])]
      = .error .noBBTicket := rfl

/-- C5 (amended): restore_sign_bbfw fails exactly on the following causes --
the archive cannot be opened (I/O, outside this embedding), the ticket
response lacks a BBTicket data entry or a BasebandFirmware dictionary, a
processed Element-Blob key has no element-to-filename mapping, the mapped
filename is not present in the archive, a container parse or signature-blob
install fails, the nonce-present FLS path finds no ebl.fls or fails to insert
the ticket, or the writeback fails (I/O) -- and on every such failure the
baseband archive on disk is left unchanged: all staged modifications are
discarded, nothing is committed.  Each error constructor is tied below to its
input-level cause. -/
theorem bbfw_failure_taxonomy_and_atomicity (P : BbfwParsers) (bbtss : BbTssResponse)
    (bb_nonce : Option Bytes) (archive : List (List Char × Bytes)) (e : BbfwErr)
    (herr : restore_sign_bbfw P bbtss bb_nonce archive = .error e) :
    restore_sign_bbfw_disk P bbtss bb_nonce archive = archive ∧
    (e = .noBBTicket ↔ bbtss.bbticket = none) ∧
    (e = .noBasebandFirmwareDict → bbtss.basebandFirmware = none) ∧
    (∀ elem, e = .elementUnmapped elem → ∃ dict, bbtss.basebandFirmware = some dict ∧
      ∃ kn ∈ dict, kn.2.isSome = true ∧ "-Blob".data.isSuffixOf kn.1 = true ∧
        kn.1.takeWhile (fun ch => ch ≠ '-') = elem ∧
        restore_get_bbfw_fn_for_element elem = none) ∧
    (∀ fn, e = .fileNotInArchive fn → ∃ dict, bbtss.basebandFirmware = some dict ∧
      ∃ kn ∈ dict, kn.2.isSome = true ∧ "-Blob".data.isSuffixOf kn.1 = true ∧
        restore_get_bbfw_fn_for_element (kn.1.takeWhile (fun ch => ch ≠ '-')) = some fn ∧
        fn ∉ archive.map Prod.fst) ∧
    (∀ fn, e = .parseOrSignFailed fn → ∃ dict, bbtss.basebandFirmware = some dict ∧
      ∃ kn ∈ dict, kn.2.isSome = true ∧ "-Blob".data.isSuffixOf kn.1 = true ∧
        restore_get_bbfw_fn_for_element (kn.1.takeWhile (fun ch => ch ≠ '-')) = some fn ∧
        ∃ b cont blob, P.sign_content b cont blob = none) ∧
    ((e = .eblNotFound ∨ e = .ticketInsertFailed) → bb_nonce.isSome = true) := by
  refine ⟨by simp [restore_sign_bbfw_disk, herr], ?_⟩
  rw [restore_sign_bbfw] at herr
  split at herr
  next hbt =>
    obtain rfl : e = .noBBTicket := by simpa using herr.symm
    refine ⟨by simp [hbt], by simp, ?_, ?_, ?_, by simp⟩
    · intro elem helem; exact absurd helem (by simp)
    · intro fn hfn; exact absurd hfn (by simp)
    · intro fn hfn; exact absurd hfn (by simp)
  next ticket hbt =>
    split at herr
    next hbf =>
      obtain rfl : e = .noBasebandFirmwareDict := by simpa using herr.symm
      refine ⟨by simp [hbt], fun _ => hbf, ?_, ?_, ?_, by simp⟩
      · intro elem helem; exact absurd helem (by simp)
      · intro fn hfn; exact absurd hfn (by simp)
      · intro fn hfn; exact absurd hfn (by simp)
    next dict hbf =>
      split at herr
      next e2 hsb =>
        obtain rfl : e = e2 := by simpa using herr.symm
        obtain ⟨h1, h2, h3, h4a, h4b, h4c, h4d⟩ :=
          bbfw_sign_blobs_error_sound P bb_nonce.isSome dict ⟨archive, [], false⟩ e hsb
        refine ⟨by simp [hbt, h4a], fun hno => absurd hno h4b, ?_, ?_, ?_, ?_⟩
        · intro elem helem
          exact ⟨dict, hbf, h1 elem helem⟩
        · intro fn hfn
          exact ⟨dict, hbf, h2 fn hfn⟩
        · intro fn hfn
          obtain ⟨kn, hm, ha, hb, hc, hd⟩ := h3 fn hfn
          exact ⟨dict, hbf, kn, hm, ha, hb, hc, hd⟩
        · intro hor
          rcases hor with h5 | h5
          · exact absurd h5 h4c
          · exact absurd h5 h4d
      next st hsb =>
        split at herr
        next hn =>
          split at herr
          next hfls =>
            split at herr
            next hebl =>
              obtain rfl : e = .eblNotFound := by simpa using herr.symm
              refine ⟨by simp [hbt], by simp, ?_, ?_, ?_, fun _ => hn⟩
              · intro elem helem; exact absurd helem (by simp)
              · intro fn hfn; exact absurd hfn (by simp)
              · intro fn hfn; exact absurd hfn (by simp)
            next ie0 hebl =>
              split at herr
              next hins =>
                obtain rfl : e = .ticketInsertFailed := by simpa using herr.symm
                refine ⟨by simp [hbt], by simp, ?_, ?_, ?_, fun _ => hn⟩
                · intro elem helem; exact absurd helem (by simp)
                · intro fn hfn; exact absurd hfn (by simp)
                · intro fn hfn; exact absurd hfn (by simp)
              next newC hins => exact absurd herr (by simp)
          next hfls => exact absurd herr (by simp)
        next hn => exact absurd herr (by simp)

/-- Witness for bbfw_failure_taxonomy_and_atomicity: a ticket demanding a
DBL blob over an archive that lacks dbl.mbn fails, and the archive on disk is
unchanged. -/
theorem bbfw_failure_taxonomy_witness :
    restore_sign_bbfw_disk ⟨fun _ c b => some (c ++ b), fun c t => some (c ++ t)⟩
      { bbticket := some [1], basebandFirmware := some [("DBL-Blob".data, some [2])] }
      none [("README.txt".data, [3])]
      = [("README.txt".data, [3])] :=
  (bbfw_failure_taxonomy_and_atomicity
    ⟨fun _ c b => some (c ++ b), fun c t => some (c ++ t)⟩
    { bbticket := some [1], basebandFirmware := some [("DBL-Blob".data, some [2])] }
    none [("README.txt".data, [3])] (.fileNotInArchive "dbl.mbn".data) (by rfl)).1

end IdeviceRestore
